import Mathlib

/-! Shallow embedding of the product-catalog-service core: the Postgres-backed
storage engine (`internal/store/postgres.go`), the REST handler layer
(`internal/api/http_handler.go`) and the gRPC handler layer
(`internal/api/grpc_handler.go`), together with theorems settling the
specification's claims about them.

Modelling conventions:
* Go `int64`/`int`/`int32` values are modelled as `Int` (Postgres raises an
  error on 32-bit overflow instead of wrapping, and no claim concerns
  overflow); SQL `LIMIT`/`OFFSET` are applied via `Int.toNat` (every call
  site normalises them to non-negative values before reaching the store).
* `float64` prices are modelled as `ℚ`: the code only copies prices and
  compares them with `<=`/`>=`; it never performs float arithmetic.
* JSON documents (`json.RawMessage` and the `attributes` JSONB column) are
  modelled as raw `String`s; SQL `NULL` is `Option.none`.
* The relational engine is modelled as an in-memory list of rows; sequential
  statements of one store call are evaluated against the same list (the spec
  itself treats the engine as an opaque transactional store).
* The go-playground validator (`h.validate.Struct`) and the protobuf
  `structpb` conversion of attribute documents are external collaborators and
  appear as function parameters of the handler embeddings.
* `ILIKE '%q%'` is modelled as ASCII case-insensitive substring search
  (wildcard characters inside the search term are treated literally; no claim
  exercises them).
-/

/-- ASCII lower-casing, modelling Go `strings.ToLower` on the ASCII inputs
the code compares (defined over the character list so that it reduces inside
the kernel). -/
def asciiLower (s : String) : String := ⟨s.data.map Char.toLower⟩

/-- ASCII upper-casing, modelling Go `strings.ToUpper` likewise. -/
def asciiUpper (s : String) : String := ⟨s.data.map Char.toUpper⟩

/-- Contiguous-infix test on character lists, the kernel of the `ILIKE`
substring model. -/
def listHasInfix (needle : List Char) : List Char → Bool
  | [] => needle.isEmpty
  | c :: rest => needle.isPrefixOf (c :: rest) || listHasInfix needle rest

/-- Case-insensitive containment, modelling SQL `hay ILIKE '%pattern%'`. -/
def ilikeContains (hay pattern : String) : Bool :=
  listHasInfix (asciiLower pattern).data (asciiLower hay).data

/-- Model of Go `strconv.Atoi` on a 64-bit platform: optional sign followed by
decimal digits; fails on empty input, stray characters, or 64-bit overflow. -/
def goAtoi (s : String) : Option Int :=
  match s.data with
  | [] => none
  | c :: rest =>
    let signDigits : Bool × List Char :=
      if c = '-' then (true, rest)
      else if c = '+' then (false, rest)
      else (false, c :: rest)
    if signDigits.2.isEmpty then none
    else if signDigits.2.all Char.isDigit then
      let n : Nat := signDigits.2.foldl (fun acc d => acc * 10 + (d.toNat - 48)) 0
      if signDigits.1 then
        if n ≤ 2 ^ 63 then some (-(n : Int)) else none
      else
        if n ≤ 2 ^ 63 - 1 then some (n : Int) else none
    else none

/-- Equality on `Except` results is decidable componentwise (used to evaluate
witnesses). -/
instance {ε α : Type _} [DecidableEq ε] [DecidableEq α] : DecidableEq (Except ε α) :=
  fun a b =>
    match a, b with
    | .error e1, .error e2 =>
      if h : e1 = e2 then isTrue (by rw [h])
      else isFalse (fun hh => h (Except.error.inj hh))
    | .ok v1, .ok v2 =>
      if h : v1 = v2 then isTrue (by rw [h])
      else isFalse (fun hh => h (Except.ok.inj hh))
    | .error _, .ok _ => isFalse (fun hh => Except.noConfusion hh)
    | .ok _, .error _ => isFalse (fun hh => Except.noConfusion hh)

/-- Insert an element into a list that is sorted w.r.t. `le`. -/
def insertSorted (le : α → α → Bool) (x : α) : List α → List α
  | [] => [x]
  | y :: ys => if le x y then x :: y :: ys else y :: insertSorted le x ys

/-- Insertion sort; models SQL `ORDER BY` (ties are resolved arbitrarily by
Postgres, and no claim depends on tie order). -/
def insertionSort (le : α → α → Bool) (l : List α) : List α :=
  l.foldr (insertSorted le) []

/-! ## Domain model (`internal/domain/models.go`) -/

/-- `domain.Category`. Timestamps are abstract instants modelled as `Int`. -/
structure Category where
  id : Int
  name : String
  description : Option String
  parentCategoryID : Option Int
  createdAt : Int
  updatedAt : Int
  deriving DecidableEq, Repr

/-- `domain.Product`. `attributes` models `*json.RawMessage` as an optional
raw string. -/
structure Product where
  id : Int
  name : String
  description : Option String
  sku : String
  price : ℚ
  stockQuantity : Int
  categoryID : Option Int
  imageURL : Option String
  isActive : Bool
  attributes : Option String
  createdAt : Int
  updatedAt : Int
  deriving DecidableEq, Repr

/-- One row of the `products.products` table. It differs from
`domain.Product` only in the `attributes` column, which holds the raw JSONB
text (`none` models SQL `NULL`; the store writes the JSON literal `"null"` as
its explicit null marker). -/
structure Row where
  id : Int
  name : String
  description : Option String
  sku : String
  price : ℚ
  stockQuantity : Int
  categoryID : Option Int
  imageURL : Option String
  isActive : Bool
  attributes : Option String
  createdAt : Int
  updatedAt : Int
  deriving DecidableEq, Repr

/-- The store's predefined error values (`internal/store/postgres.go`). -/
inductive StoreErr
  | categoryNotFound
  | categoryNameExists
  | productNotFound
  | productSKUExists
  | insufficientStock
  deriving DecidableEq, Repr

/-! ## Storage engine (`internal/store/postgres.go`) -/

/-- The write-side handling of `product.Attributes` shared by `CreateProduct`
and `UpdateProduct`: a present non-empty document is written verbatim,
otherwise the JSON literal `"null"` is written. -/
def encodeAttributes : Option String → String
  | some a => if a.length > 0 then a else "null"
  | none => "null"

/-- The read-side handling of the scanned `attributes` column shared by every
product query: the value is kept only when the column is non-NULL, non-empty
and not the literal `"null"`. -/
def decodeAttributes : Option String → Option String
  | some s => if s != "" && s != "null" then some s else none
  | none => none

/-- Scanning a `products.products` row into a `domain.Product`. -/
def rowToProduct (r : Row) : Product :=
  { id := r.id, name := r.name, description := r.description, sku := r.sku,
    price := r.price, stockQuantity := r.stockQuantity, categoryID := r.categoryID,
    imageURL := r.imageURL, isActive := r.isActive,
    attributes := decodeAttributes r.attributes,
    createdAt := r.createdAt, updatedAt := r.updatedAt }

/-- `store.ListCategoriesParams`. -/
structure ListCategoriesParams where
  limit : Int
  offset : Int
  deriving DecidableEq, Repr

/-- `store.ListProductsParams`. -/
structure ListProductsParams where
  limit : Int
  offset : Int
  searchQuery : Option String
  categoryID : Option Int
  minPrice : Option ℚ
  maxPrice : Option ℚ
  isActive : Option Bool
  sortBy : String
  sortOrder : String
  productIDs : List Int
  deriving DecidableEq, Repr

/-- The dynamically built `WHERE` predicate of `ListProducts`, shared by its
count query and its data query (a clause is appended for each present
criterion; a `NULL` column never satisfies an equality or `ILIKE` clause). -/
def matchesFilters (params : ListProductsParams) (r : Row) : Bool :=
  (match params.searchQuery with
   | some q =>
     if q != "" then
       ilikeContains r.name q ||
         (match r.description with
          | some d => ilikeContains d q
          | none => false)
     else true
   | none => true) &&
  (match params.categoryID with
   | some cid => (match r.categoryID with | some c => c == cid | none => false)
   | none => true) &&
  (match params.minPrice with
   | some m => decide (m ≤ r.price)
   | none => true) &&
  (match params.maxPrice with
   | some m => decide (r.price ≤ m)
   | none => true) &&
  (match params.isActive with
   | some b => r.isActive == b
   | none => true) &&
  (if params.productIDs.length > 0 then params.productIDs.contains r.id else true)

/-- `allowedSortColumns` lookup of `ListProducts` with its `created_at`
default for unrecognised fields. -/
def sortColumnOf (sortBy : String) : String :=
  match asciiLower sortBy with
  | "name" => "name"
  | "price" => "price"
  | "created_at" => "created_at"
  | "updated_at" => "updated_at"
  | _ => "created_at"

/-- Comparison of two rows under one allow-listed sort column. -/
def rowKeyLE (col : String) (a b : Row) : Bool :=
  match col with
  | "name" => decide (a.name ≤ b.name)
  | "price" => decide (a.price ≤ b.price)
  | "updated_at" => decide (a.updatedAt ≤ b.updatedAt)
  | _ => decide (a.createdAt ≤ b.createdAt)

/-- `ORDER BY col ASC|DESC` comparison (`DESC` only when the caller passed
exactly that word, case-insensitively). -/
def rowOrder (col : String) (desc : Bool) (a b : Row) : Bool :=
  if desc then rowKeyLE col b a else rowKeyLE col a b

namespace PostgresStore

/-- The `SELECT COUNT(*)` query of `ListProducts` (same predicates as the
data query). -/
def countProducts (db : List Row) (params : ListProductsParams) : Nat :=
  (db.filter (matchesFilters params)).length

/-- The data query of `ListProducts`: shared `WHERE` predicates, `ORDER BY`
the allow-listed column, then `LIMIT`/`OFFSET`, each row scanned into a
`domain.Product`. -/
def listProductsDataQuery (db : List Row) (params : ListProductsParams) : List Product :=
  let sorted := insertionSort
      (rowOrder (sortColumnOf params.sortBy) (asciiUpper params.sortOrder == "DESC"))
      (db.filter (matchesFilters params))
  ((sorted.drop params.offset.toNat).take params.limit.toNat).map rowToProduct

/-- `ListProducts` with the data query abstracted as an oracle: the oracle is
consulted only when the count query reported a nonzero total, which makes the
short-circuit ("total count 0 never executes the data query") expressible. -/
def ListProductsWith (dataQ : List Row → ListProductsParams → List Product)
    (db : List Row) (params : ListProductsParams) : List Product × Nat :=
  let totalCount := countProducts db params
  if totalCount = 0 then ([], 0)
  else (dataQ db params, totalCount)

/-- `PostgresStore.ListProducts`: count query, zero-total short-circuit, then
the data query. The Go code returns a `make`-initialised slice in every
branch, so the result is always a genuine (possibly empty) sequence. -/
def ListProducts (db : List Row) (params : ListProductsParams) : List Product × Nat :=
  ListProductsWith listProductsDataQuery db params

/-- The `SELECT COUNT(*) FROM products.categories` query of `ListCategories`
(no filters exist in `ListCategoriesParams`). -/
def countCategories (db : List Category) : Nat := db.length

/-- The data query of `ListCategories`: fixed `ORDER BY name ASC`, then
`LIMIT`/`OFFSET`. -/
def listCategoriesDataQuery (db : List Category) (params : ListCategoriesParams) :
    List Category :=
  let sorted := insertionSort (fun a b => decide (a.name ≤ b.name)) db
  (sorted.drop params.offset.toNat).take params.limit.toNat

/-- `ListCategories` with the data query abstracted as an oracle (see
`ListProductsWith`). -/
def ListCategoriesWith (dataQ : List Category → ListCategoriesParams → List Category)
    (db : List Category) (params : ListCategoriesParams) : List Category × Nat :=
  let totalCount := countCategories db
  if totalCount = 0 then ([], 0)
  else (dataQ db params, totalCount)

/-- `PostgresStore.ListCategories`: count query, zero-total short-circuit,
then the data query. -/
def ListCategories (db : List Category) (params : ListCategoriesParams) :
    List Category × Nat :=
  ListCategoriesWith listCategoriesDataQuery db params

/-- `PostgresStore.GetProductByID`: `SELECT ... WHERE id = $1`, mapping
`sql.ErrNoRows` to `ErrProductNotFound`. -/
def GetProductByID (db : List Row) (id : Int) : Except StoreErr Product :=
  match db.find? (fun r => r.id == id) with
  | some r => .ok (rowToProduct r)
  | none => .error .productNotFound

/-- The row written by `CreateProduct`'s `INSERT`: field values from the
input product, the attributes document encoded (absent/empty becomes the
explicit `"null"` marker), id and timestamps assigned by the store. -/
def insertedProductRow (newId now : Int) (product : Product) : Row :=
  { id := newId, name := product.name, description := product.description,
    sku := product.sku, price := product.price,
    stockQuantity := product.stockQuantity, categoryID := product.categoryID,
    imageURL := product.imageURL, isActive := product.isActive,
    attributes := some (encodeAttributes product.attributes),
    createdAt := now, updatedAt := now }

/-- `PostgresStore.CreateProduct`: the `INSERT ... RETURNING` statement.
A unique-constraint violation on the SKU maps to `ErrProductSKUExists`; the
attributes document is encoded on write and decoded again when the returned
row is scanned. `newId` and `now` model the store-assigned id and
`CURRENT_TIMESTAMP`. -/
def CreateProduct (db : List Row) (newId : Int) (now : Int) (product : Product) :
    Except StoreErr (Product × List Row) :=
  if db.any (fun r => r.sku == product.sku) then .error .productSKUExists
  else
    .ok (rowToProduct (insertedProductRow newId now product),
      db ++ [insertedProductRow newId now product])

/-- `PostgresStore.UpdateStock`: the single guarded statement
`UPDATE ... SET stock_quantity = stock_quantity + $1 WHERE id = $2 AND
stock_quantity + $1 >= 0 RETURNING ...`. When it affects no row, a follow-up
`SELECT EXISTS` distinguishes `ErrProductNotFound` from
`ErrInsufficientStock`. The second component is the table after the call. -/
def UpdateStock (db : List Row) (productID : Int) (quantityChange : Int) (now : Int) :
    Except StoreErr Product × List Row :=
  match db.find? (fun r => r.id == productID && decide (0 ≤ r.stockQuantity + quantityChange)) with
  | some r =>
    (.ok (rowToProduct
        { r with stockQuantity := r.stockQuantity + quantityChange, updatedAt := now }),
     db.map (fun q =>
       if q.id == productID && decide (0 ≤ q.stockQuantity + quantityChange) then
         { q with stockQuantity := q.stockQuantity + quantityChange, updatedAt := now }
       else q))
  | none =>
    if db.any (fun r => r.id == productID) then (.error .insufficientStock, db)
    else (.error .productNotFound, db)

end PostgresStore

/-! ## REST request handler (`internal/api/http_handler.go`) -/

/-- The outcome of a REST handler: a success payload with its status code, or
an error status with the JSON error message. -/
inductive RestResponse (α : Type)
  | ok (status : Nat) (payload : α)
  | err (status : Nat) (message : String)
  deriving DecidableEq, Repr

/-- `api.CategoryUpdateInput` after JSON decoding. -/
structure CategoryUpdateInput where
  name : String
  description : Option String
  parentCategoryID : Option Int
  deriving DecidableEq, Repr

/-- `api.ProductUpdateInput` after JSON decoding. -/
structure ProductUpdateInput where
  name : String
  description : Option String
  sku : String
  price : ℚ
  stockQuantity : Int
  categoryID : Option Int
  imageURL : Option String
  isActive : Option Bool
  attributes : Option String
  deriving DecidableEq, Repr

/-- The shared `limit` normalisation of the REST list handlers: an absent or
unparsable or non-positive value falls back to 10, and values above 100 are
clamped to 100 (`none` models a `strconv.Atoi` failure, including the absent
parameter). -/
def normalizeLimit (limitParam : Option Int) : Int :=
  let l : Int :=
    match limitParam with
    | none => 10
    | some v => if v ≤ 0 then 10 else v
  if l > 100 then 100 else l

/-- The shared `page` normalisation: absent/unparsable/non-positive falls
back to page 1. -/
def normalizePage (pageParam : Option Int) : Int :=
  match pageParam with
  | none => 1
  | some v => if v ≤ 0 then 1 else v

/-- The `pagination` object of the REST list envelope. -/
structure Pagination where
  page : Int
  limit : Int
  totalItems : Nat
  totalPages : Nat
  deriving DecidableEq, Repr

/-- The `{data, pagination}` envelope of the REST list endpoints. -/
structure ListEnvelope (α : Type) where
  data : List α
  pagination : Pagination
  deriving DecidableEq, Repr

/-- The `total_pages` computation shared verbatim by `ListProducts` and
`ListCategories`: `(totalCount + limit - 1) / limit` when the total is
positive, 0 otherwise. -/
def totalPagesFor (totalCount : Nat) (limit : Int) : Nat :=
  if totalCount > 0 then (totalCount + limit.toNat - 1) / limit.toNat else 0

/-- A decoded optional query parameter: absent, present but unparsable, or
present with its parsed value. -/
inductive QueryParam (α : Type)
  | absent
  | malformed
  | val (v : α)
  deriving DecidableEq, Repr

namespace HTTPHandler

/-- `HTTPHandler.ListCategories`: normalise `limit`/`page`, derive the
offset, query the store and shape the pagination envelope. (The store model
is total, so the 500 branch for storage failures does not arise.) -/
def ListCategories (db : List Category) (limitParam pageParam : Option Int) :
    ListEnvelope Category :=
  let limit := normalizeLimit limitParam
  let page := normalizePage pageParam
  let offset := (page - 1) * limit
  let res := PostgresStore.ListCategories db { limit := limit, offset := offset }
  { data := res.1,
    pagination :=
      { page := page, limit := limit, totalItems := res.2,
        totalPages := totalPagesFor res.2 limit } }

/-- `params.MinPrice != nil && params.MaxPrice != nil && *min > *max`. -/
def minMaxInverted (minPrice maxPrice : Option ℚ) : Bool :=
  match minPrice, maxPrice with
  | some mn, some mx => decide (mx < mn)
  | _, _ => false

/-- Continuation of `ListProducts` after the `category_id` parameter has been
handled: validate the remaining filter and sort parameters (each bad value is
a 400), query the store, and shape the pagination envelope. -/
def listProductsRest (db : List Row) (limit page offset : Int)
    (searchQuery : Option String) (categoryID : Option Int)
    (minPriceParam maxPriceParam : QueryParam ℚ) (isActiveParam : QueryParam Bool)
    (sortByParam sortOrderParam : String) : RestResponse (ListEnvelope Product) :=
  let minPrice : Except Unit (Option ℚ) :=
    match minPriceParam with
    | .absent => .ok none
    | .malformed => .error ()
    | .val v => if 0 ≤ v then .ok (some v) else .error ()
  match minPrice with
  | .error _ => .err 400 "Invalid min_price format"
  | .ok minPrice =>
    let maxPrice : Except Unit (Option ℚ) :=
      match maxPriceParam with
      | .absent => .ok none
      | .malformed => .error ()
      | .val v => if 0 ≤ v then .ok (some v) else .error ()
    match maxPrice with
    | .error _ => .err 400 "Invalid max_price format"
    | .ok maxPrice =>
      if minMaxInverted minPrice maxPrice then .err 400 "min_price cannot exceed max_price"
      else
        match isActiveParam with
        | .malformed => .err 400 "Invalid is_active value: must be true or false"
        | isActiveParam =>
          let isActive : Option Bool :=
            match isActiveParam with
            | .val b => some b
            | _ => none
          if !(sortByParam == "name" || sortByParam == "price" ||
               sortByParam == "created_at" || sortByParam == "updated_at" ||
               sortByParam == "") then
            .err 400 "Invalid sort_by field"
          else if sortOrderParam != "" && asciiLower sortOrderParam != "asc" &&
              asciiLower sortOrderParam != "desc" then
            .err 400 "Invalid sort_order value. Allowed: asc, desc"
          else
            let res := PostgresStore.ListProducts db
              { limit := limit, offset := offset, searchQuery := searchQuery,
                categoryID := categoryID, minPrice := minPrice, maxPrice := maxPrice,
                isActive := isActive, sortBy := sortByParam, sortOrder := sortOrderParam,
                productIDs := [] }
            .ok 200
              { data := res.1,
                pagination :=
                  { page := page, limit := limit, totalItems := res.2,
                    totalPages := totalPagesFor res.2 limit } }

/-- `HTTPHandler.ListProducts`: normalise pagination, validate and collect
the optional filter parameters (each bad value is a 400), whitelist
`sort_by`/`sort_order`, query the store, and shape the envelope. -/
def ListProducts (db : List Row) (limitParam pageParam : Option Int) (q : String)
    (categoryIdParam : QueryParam Int) (minPriceParam maxPriceParam : QueryParam ℚ)
    (isActiveParam : QueryParam Bool) (sortByParam sortOrderParam : String) :
    RestResponse (ListEnvelope Product) :=
  let limit := normalizeLimit limitParam
  let page := normalizePage pageParam
  let offset := (page - 1) * limit
  let searchQuery := if q != "" then some q else none
  match categoryIdParam with
  | .malformed => .err 400 "Invalid category_id format"
  | .val cid =>
    if cid ≤ 0 then .err 400 "Invalid category_id format"
    else listProductsRest db limit page offset searchQuery (some cid)
      minPriceParam maxPriceParam isActiveParam sortByParam sortOrderParam
  | .absent =>
    listProductsRest db limit page offset searchQuery none
      minPriceParam maxPriceParam isActiveParam sortByParam sortOrderParam

/-- The error mapping of `HTTPHandler.UpdateCategory` for store failures. -/
def updateCategoryError (e : StoreErr) : RestResponse Category :=
  match e with
  | .categoryNotFound => .err 404 "store: category not found"
  | .categoryNameExists => .err 409 "store: category name already exists"
  | _ => .err 500 "Failed to update category"

/-- `HTTPHandler.UpdateCategory`. `validate` models `h.validate.Struct`
(the go-playground validator, an external collaborator); `storeUpdate` models
`h.categoryStore.UpdateCategory` in state-passing form; `idParam` is the
parsed path id (`none` for a `ParseInt` failure) and `payload` the decoded
body (`none` for a JSON decoding failure). The handler returns the response
together with the store state after the call. -/
def UpdateCategory (validate : CategoryUpdateInput → Bool)
    (storeUpdate : Category → List Category → Except StoreErr Category × List Category)
    (db : List Category) (idParam : Option Int) (payload : Option CategoryUpdateInput) :
    RestResponse Category × List Category :=
  match idParam with
  | none => (.err 400 "Invalid category ID format", db)
  | some categoryID =>
    if categoryID ≤ 0 then (.err 400 "Invalid category ID format", db)
    else
      match payload with
      | none => (.err 400 "Invalid request payload", db)
      | some input =>
        if !validate input then (.err 400 "Validation failed", db)
        else if (match input.parentCategoryID with
                 | some pid => pid == categoryID
                 | none => false) then
          (.err 400 "Category cannot be its own parent", db)
        else
          match storeUpdate
              { id := categoryID, name := input.name, description := input.description,
                parentCategoryID := input.parentCategoryID, createdAt := 0, updatedAt := 0 }
              db with
          | (.ok updated, db2) => (.ok 200 updated, db2)
          | (.error e, db2) => (updateCategoryError e, db2)

/-- The error mapping of `HTTPHandler.UpdateProduct` for `UpdateProduct`
store failures. -/
def updateProductError (e : StoreErr) : RestResponse Product :=
  match e with
  | .productNotFound => .err 404 "store: product not found"
  | .productSKUExists => .err 409 "store: product SKU already exists"
  | .categoryNotFound => .err 400 "Invalid category_id: category does not exist."
  | _ => .err 500 "Failed to update product"

/-- `HTTPHandler.UpdateProduct`: parse the id, decode and validate the
payload, perform the existence check via `GetProductByID` (404 on
`ErrProductNotFound`), then call the store's `UpdateProduct` (modelled by the
`updateProduct` parameter in state-passing form, so that independence from it
is expressible). -/
def UpdateProduct (validate : ProductUpdateInput → Bool)
    (updateProduct : Product → List Row → Except StoreErr Product × List Row)
    (db : List Row) (idParam : Option Int) (payload : Option ProductUpdateInput) :
    RestResponse Product × List Row :=
  match idParam with
  | none => (.err 400 "Invalid product ID format", db)
  | some productID =>
    if productID ≤ 0 then (.err 400 "Invalid product ID format", db)
    else
      match payload with
      | none => (.err 400 "Invalid request payload", db)
      | some input =>
        if !validate input then (.err 400 "Validation failed", db)
        else
          match PostgresStore.GetProductByID db productID with
          | .error .productNotFound => (.err 404 "store: product not found", db)
          | .error _ => (.err 500 "Error checking product existence", db)
          | .ok _ =>
            let isActive : Bool :=
              match input.isActive with
              | some b => b
              | none => true
            match updateProduct
                { id := productID, name := input.name, description := input.description,
                  sku := input.sku, price := input.price,
                  stockQuantity := input.stockQuantity, categoryID := input.categoryID,
                  imageURL := input.imageURL, isActive := isActive,
                  attributes := input.attributes, createdAt := 0, updatedAt := 0 }
                db with
            | (.ok updated, db2) => (.ok 200 updated, db2)
            | (.error e, db2) => (updateProductError e, db2)

end HTTPHandler

/-! ## gRPC request handler (`internal/api/grpc_handler.go`) -/

/-- gRPC status codes used by the handler. -/
inductive GrpcCode
  | invalidArgument
  | notFound
  | alreadyExists
  | failedPrecondition
  | internal
  deriving DecidableEq, Repr

/-- A gRPC error status with its message. -/
structure GrpcStatus where
  code : GrpcCode
  message : String
  deriving DecidableEq, Repr

/-- `mapStoreErrorToGrpcStatus`: `NotFound` kinds map to `NotFound`, conflict
kinds to `AlreadyExists`, `ErrInsufficientStock` to `FailedPrecondition`
(everything else, not produced by the store model, would map to
`Internal`). -/
def mapStoreErrorToGrpcStatus (e : StoreErr) (resourceName : String) (resourceID : Int) :
    GrpcStatus :=
  match e with
  | .categoryNotFound =>
    { code := .notFound,
      message := resourceName ++ " with ID " ++ toString resourceID ++ " not found" }
  | .productNotFound =>
    { code := .notFound,
      message := resourceName ++ " with ID " ++ toString resourceID ++ " not found" }
  | .categoryNameExists =>
    { code := .alreadyExists,
      message := "A " ++ resourceName ++ " with the given name already exists" }
  | .productSKUExists =>
    { code := .alreadyExists,
      message := "A " ++ resourceName ++ " with the given SKU already exists" }
  | .insufficientStock =>
    { code := .failedPrecondition,
      message := "Insufficient stock for " ++ resourceName ++ " ID " ++
        toString resourceID ++ ", or operation violates constraints" }

/-- `proto.Category` as built by `convertDomainCategoryToProto`. -/
structure ProtoCategory where
  id : Int
  name : String
  description : Option String
  parentCategoryId : Option Int
  createdAt : Int
  updatedAt : Int
  deriving DecidableEq, Repr

/-- `convertDomainCategoryToProto` (cannot fail). -/
def convertDomainCategoryToProto (c : Category) : ProtoCategory :=
  { id := c.id, name := c.name, description := c.description,
    parentCategoryId := c.parentCategoryID,
    createdAt := c.createdAt, updatedAt := c.updatedAt }

/-- `proto.Product`. `σ` is the type of the `structpb.Struct` attribute
document produced by the external protobuf conversion. -/
structure ProtoProduct (σ : Type) where
  id : Int
  name : String
  sku : String
  price : ℚ
  stockQuantity : Int
  isActive : Bool
  createdAt : Int
  updatedAt : Int
  description : Option String
  categoryId : Option Int
  imageUrl : Option String
  attributes : Option σ
  deriving DecidableEq, Repr

/-- `convertDomainProductToProto`. `unm` models the composite of
`json.Unmarshal` into a `map[string]interface{}` followed by
`structpb.NewStruct` — the external collaborators that turn the raw
attributes text into a structured document, or fail. A present, non-empty
attributes value other than the literal `"null"` must convert, otherwise the
whole conversion fails (`none`). -/
def convertDomainProductToProto {σ : Type} (unm : String → Option σ) (p : Product) :
    Option (ProtoProduct σ) :=
  let base : ProtoProduct σ :=
    { id := p.id, name := p.name, sku := p.sku, price := p.price,
      stockQuantity := p.stockQuantity, isActive := p.isActive,
      createdAt := p.createdAt, updatedAt := p.updatedAt,
      description := p.description, categoryId := p.categoryID,
      imageUrl := p.imageURL, attributes := none }
  match p.attributes with
  | some a =>
    if a.length > 0 then
      if a == "null" then some base
      else
        match unm a with
        | some s => some { base with attributes := some s }
        | none => none
    else some base
  | none => some base

/-- `common.PageInfoResponse`. -/
structure PageInfoResponse where
  nextPageToken : String
  totalSize : Nat
  deriving DecidableEq, Repr

/-- `product.ListCategoriesInternalRequest` (page info flattened). -/
structure ListCategoriesInternalRequest where
  pageSize : Int
  pageToken : String
  parentCategoryId : Int
  deriving DecidableEq, Repr

/-- `product.ListCategoriesInternalResponse`. -/
structure ListCategoriesInternalResponse where
  categories : List ProtoCategory
  pageInfo : PageInfoResponse
  deriving DecidableEq, Repr

/-- `product.ListProductsInternalRequest` (page info flattened; proto3
scalars default to 0/""/false when unset). -/
structure ListProductsInternalRequest where
  pageSize : Int
  pageToken : String
  categoryId : Int
  productIds : List Int
  includeInactive : Bool
  deriving DecidableEq, Repr

/-- `product.ListProductsInternalResponse`. -/
structure ListProductsInternalResponse (σ : Type) where
  products : List (ProtoProduct σ)
  pageInfo : PageInfoResponse
  deriving DecidableEq, Repr

/-- The shared `page_size` normalisation of the RPC list handlers: a
non-positive size falls back to 10, sizes above 100 are clamped to 100. -/
def normalizePageSize (pageSize : Int) : Int :=
  let l := if pageSize ≤ 0 then 10 else pageSize
  if l > 100 then 100 else l

/-- The shared page-token handling of the RPC list handlers: an empty token,
an unparsable token (`strconv.Atoi` failure) or a parsed negative value all
leave the offset at 0; a parsed non-negative value becomes the offset. -/
def tokenOffset (token : String) : Nat :=
  if token != "" then
    match goAtoi token with
    | some v => if 0 ≤ v then v.toNat else 0
    | none => 0
  else 0

namespace GRPCHandler

/-- `GRPCHandler.ListCategoriesInternal`: normalise the page size, decode the
page token into an offset, list from the store, convert the rows, and emit
the next-page token (the prior offset plus the number of returned rows) only
when rows remain beyond this page. The `parent_category_id` field is read but
not used for filtering (see the code comment in the handler). -/
def ListCategoriesInternal (db : List Category) (req : ListCategoriesInternalRequest) :
    ListCategoriesInternalResponse :=
  let limit := normalizePageSize req.pageSize
  let offset := tokenOffset req.pageToken
  let res := PostgresStore.ListCategories db { limit := limit, offset := (offset : Int) }
  let protoCategories := res.1.map convertDomainCategoryToProto
  let nextPageToken :=
    if offset + protoCategories.length < res.2 then
      toString (offset + protoCategories.length)
    else ""
  { categories := protoCategories,
    pageInfo := { nextPageToken := nextPageToken, totalSize := res.2 } }

/-- The `store.ListProductsParams` built by `ListProductsInternal`: the ids
pass through, a positive `category_id` becomes a filter, and unless
`include_inactive` is set the listing is restricted to active products (the
code's inner `if !req.GetIncludeInactive()` under the positive branch is
unreachable, so an `include_inactive` request simply leaves the active filter
unset). -/
def productsInternalParams (req : ListProductsInternalRequest) (limit offset : Int) :
    ListProductsParams :=
  { limit := limit, offset := offset, searchQuery := none,
    categoryID := if req.categoryId > 0 then some req.categoryId else none,
    minPrice := none, maxPrice := none,
    isActive := if req.includeInactive then none else some true,
    sortBy := "", sortOrder := "", productIDs := req.productIds }

/-- `GRPCHandler.ListProductsInternal`: normalise the page size, decode the
page token, list from the store, convert each row (rows whose attribute
conversion fails are silently omitted), and emit the next-page token (the
prior offset plus the number of returned rows) only when more rows remain. -/
def ListProductsInternal {σ : Type} (unm : String → Option σ) (db : List Row)
    (req : ListProductsInternalRequest) : ListProductsInternalResponse σ :=
  let limit := normalizePageSize req.pageSize
  let offset := tokenOffset req.pageToken
  let res := PostgresStore.ListProducts db (productsInternalParams req limit (offset : Int))
  let actualProtoProducts := res.1.filterMap (convertDomainProductToProto unm)
  let nextPageToken :=
    if offset + actualProtoProducts.length < res.2 then
      toString (offset + actualProtoProducts.length)
    else ""
  { products := actualProtoProducts,
    pageInfo := { nextPageToken := nextPageToken, totalSize := res.2 } }

end GRPCHandler

/-- One `(product_id, quantity_change)` item of an `UpdateStockRequest`. -/
structure StockUpdateItem where
  productId : Int
  quantityChange : Int
  deriving DecidableEq, Repr

/-- `product.UpdateStockResponse`. -/
structure UpdateStockResponse (σ : Type) where
  updatedProducts : List (ProtoProduct σ)
  deriving DecidableEq, Repr

namespace GRPCHandler

/-- The item loop of `GRPCHandler.UpdateStock`: each item is adjusted
independently through the store's single-item `UpdateStock` (threading the
table state), invalid ids and failed items are skipped, the first error is
retained, and successfully updated products are accumulated in order. -/
def updateStockLoop {σ : Type} (unm : String → Option σ) (now : Int) (db : List Row)
    (acc : List (ProtoProduct σ)) (firstError : Option GrpcStatus) :
    List StockUpdateItem → List (ProtoProduct σ) × Option GrpcStatus × List Row
  | [] => (acc, firstError, db)
  | item :: rest =>
    if item.productId ≤ 0 then
      updateStockLoop unm now db acc
        (firstError <|> some { code := .invalidArgument,
                               message := "Item has invalid Product ID: " ++
                                 toString item.productId })
        rest
    else
      match PostgresStore.UpdateStock db item.productId item.quantityChange now with
      | (.error e, db2) =>
        updateStockLoop unm now db2 acc
          (firstError <|> some (mapStoreErrorToGrpcStatus e "Product" item.productId))
          rest
      | (.ok p, db2) =>
        match convertDomainProductToProto unm p with
        | none =>
          updateStockLoop unm now db2 acc
            (firstError <|> some { code := .internal,
                                   message := "Failed to process data for product ID " ++
                                     toString p.id })
            rest
        | some pp => updateStockLoop unm now db2 (acc ++ [pp]) firstError rest

/-- `GRPCHandler.UpdateStock`: reject an empty batch, run the item loop, then
return partial results alongside the first error when one occurred and fewer
products were updated than requested; the final `return nil, firstError`
branch mirrors the code's `// All items failed` case. The result is the
response pointer (`none` models a `nil` response), the returned error and the
table state after the call. -/
def UpdateStock {σ : Type} (unm : String → Option σ) (db : List Row) (now : Int)
    (items : List StockUpdateItem) :
    Option (UpdateStockResponse σ) × Option GrpcStatus × List Row :=
  if items.length = 0 then
    (none, some { code := .invalidArgument, message := "No items provided for stock update" },
     db)
  else
    match updateStockLoop unm now db [] none items with
    | (updatedProducts, firstError, db2) =>
      if firstError.isSome && updatedProducts.length < items.length then
        (some { updatedProducts := updatedProducts }, firstError, db2)
      else if firstError.isSome then
        (none, firstError, db2)
      else
        (some { updatedProducts := updatedProducts }, none, db2)

end GRPCHandler

/-- One `(product_id, required_quantity)` item of a
`CheckProductsAvailabilityRequest`. -/
structure AvailabilityItem where
  productId : Int
  requiredQuantity : Int
  deriving DecidableEq, Repr

/-- `product.ProductAvailabilityStatus`; unset proto fields keep their
zero values. -/
structure ProductAvailabilityStatus where
  productId : Int
  isAvailable : Bool
  name : String
  currentPrice : ℚ
  availableQuantity : Int
  reasonNotAvailable : Option String
  deriving DecidableEq, Repr

/-- The validation loop of `CheckProductsAvailability`: the whole request is
rejected at the first non-positive product id, and otherwise at the first
non-positive required quantity (the id is checked before the quantity of the
same item, as in the code). -/
def validateAvailabilityItems : List AvailabilityItem → Option GrpcStatus
  | [] => none
  | item :: rest =>
    if item.productId ≤ 0 then
      some { code := .invalidArgument,
             message := "Item contains invalid Product ID: " ++ toString item.productId }
    else if item.requiredQuantity ≤ 0 then
      some { code := .invalidArgument,
             message := "Item Product ID " ++ toString item.productId ++
               " has invalid required quantity: " ++ toString item.requiredQuantity }
    else validateAvailabilityItems rest

/-- The `domainProductMap` lookup: the map is built by inserting every
fetched product keyed by id (later entries win), then queried per item. -/
def lookupProduct (ps : List Product) (pid : Int) : Option Product :=
  ps.foldl (fun acc p => if p.id == pid then some p else acc) none

/-- The per-item status of `CheckProductsAvailability`: "not found" when the
id is absent from the fetched set; otherwise the name, current price and
available quantity are filled in, and the item is unavailable when the
product is inactive or its stock is strictly below the requirement, available
otherwise. -/
def buildStatus (ps : List Product) (item : AvailabilityItem) :
    ProductAvailabilityStatus :=
  match lookupProduct ps item.productId with
  | none =>
    { productId := item.productId, isAvailable := false, name := "",
      currentPrice := 0, availableQuantity := 0,
      reasonNotAvailable := some "Product not found." }
  | some p =>
    let base : ProductAvailabilityStatus :=
      { productId := item.productId, isAvailable := false, name := p.name,
        currentPrice := p.price, availableQuantity := p.stockQuantity,
        reasonNotAvailable := none }
    if !p.isActive then
      { base with reasonNotAvailable := some "Product is not active." }
    else if p.stockQuantity < item.requiredQuantity then
      { base with reasonNotAvailable := some "Insufficient stock." }
    else
      { base with isAvailable := true }

/-- The `store.ListProductsParams` built by `CheckProductsAvailability`: all
requested ids in one call, restricted to active products, with the limit set
to the number of ids. -/
def availabilityParams (items : List AvailabilityItem) : ListProductsParams :=
  { limit := ((items.map (fun i => i.productId)).length : Int), offset := 0,
    searchQuery := none, categoryID := none, minPrice := none, maxPrice := none,
    isActive := some true, sortBy := "", sortOrder := "",
    productIDs := items.map (fun i => i.productId) }

namespace GRPCHandler

/-- `GRPCHandler.CheckProductsAvailability`: reject an empty batch, validate
every item, fetch all referenced active products in one list call, and build
one availability status per requested item. -/
def CheckProductsAvailability (db : List Row) (items : List AvailabilityItem) :
    Except GrpcStatus (List ProductAvailabilityStatus) :=
  if items.length = 0 then
    .error { code := .invalidArgument, message := "No items provided for availability check" }
  else
    match validateAvailabilityItems items with
    | some e => .error e
    | none =>
      let fetched := (PostgresStore.ListProducts db (availabilityParams items)).1
      .ok (items.map (buildStatus fetched))

end GRPCHandler

/-! ## Helper lemmas -/

/-- If `find?` under a weaker predicate returns `a` and `a` also satisfies the
stronger predicate, `find?` under the stronger predicate returns `a` too. -/
theorem find?_of_stronger {α : Type _} {p q : α → Bool} {a : α} :
    ∀ {l : List α}, l.find? p = some a → (∀ x, q x = true → p x = true) →
      q a = true → l.find? q = some a := by
  intro l
  induction l with
  | nil => intro h _ _; simp at h
  | cons x xs ih =>
    intro h himp hq
    by_cases hpx : p x
    · rw [List.find?_cons_of_pos _ hpx] at h
      have hxa : x = a := Option.some.inj h
      subst hxa
      exact List.find?_cons_of_pos _ hq
    · rw [List.find?_cons_of_neg _ hpx] at h
      have hqx : ¬ q x = true := fun hx => hpx (himp x hx)
      rw [List.find?_cons_of_neg _ hqx]
      exact ih h himp hq

/-- Membership after inserting into a sorted list. -/
theorem mem_insertSorted {α : Type _} {le : α → α → Bool} {x a : α} :
    ∀ {l : List α}, a ∈ insertSorted le x l → a = x ∨ a ∈ l := by
  intro l
  induction l with
  | nil =>
    intro h
    simp only [insertSorted, List.mem_singleton] at h
    exact Or.inl h
  | cons y ys ih =>
    intro h
    simp only [insertSorted] at h
    by_cases hc : le x y
    · rw [if_pos hc] at h
      rcases List.mem_cons.mp h with h1 | h2
      · exact Or.inl h1
      · exact Or.inr h2
    · rw [if_neg hc] at h
      rcases List.mem_cons.mp h with h1 | h2
      · exact Or.inr (List.mem_cons.mpr (Or.inl h1))
      · rcases ih h2 with h3 | h4
        · exact Or.inl h3
        · exact Or.inr (List.mem_cons.mpr (Or.inr h4))

/-- `insertionSort` introduces no new elements. -/
theorem mem_insertionSort {α : Type _} {le : α → α → Bool} {a : α} :
    ∀ {l : List α}, a ∈ insertionSort le l → a ∈ l := by
  intro l
  induction l with
  | nil => intro h; simp [insertionSort] at h
  | cons y ys ih =>
    intro h
    have h2 : a ∈ insertSorted le y (insertionSort le ys) := h
    rcases mem_insertSorted h2 with h3 | h4
    · rw [h3]; exact List.mem_cons_self y ys
    · exact List.mem_cons.mpr (Or.inr (ih h4))

/-! ## C1 -/

/-- **C1**: for every `UpdateStock(id, delta)` call on a table whose ids are
unique keys: when no row carries the id, the call returns
`ErrProductNotFound` and the table is unchanged; when the row exists but its
stock plus delta would be negative, the call returns `ErrInsufficientStock`
and the table is unchanged; otherwise the single guarded statement adjusts
the stock by delta and the updated product is returned. -/
theorem C1_updateStock_guarded (db : List Row) (productID quantityChange now : Int)
    (huniq : ∀ r ∈ db, ∀ s ∈ db, r.id = s.id → r = s) :
    (db.find? (fun r => r.id == productID) = none →
      PostgresStore.UpdateStock db productID quantityChange now =
        (.error .productNotFound, db)) ∧
    (∀ r, db.find? (fun x => x.id == productID) = some r →
      r.stockQuantity + quantityChange < 0 →
      PostgresStore.UpdateStock db productID quantityChange now =
        (.error .insufficientStock, db)) ∧
    (∀ r, db.find? (fun x => x.id == productID) = some r →
      0 ≤ r.stockQuantity + quantityChange →
      PostgresStore.UpdateStock db productID quantityChange now =
        (.ok (rowToProduct
            { r with stockQuantity := r.stockQuantity + quantityChange, updatedAt := now }),
         db.map (fun q =>
           if q.id == productID then
             { q with stockQuantity := q.stockQuantity + quantityChange, updatedAt := now }
           else q))) := by
  refine ⟨?_, ?_, ?_⟩
  · intro hnone
    have hall : ∀ x ∈ db, ¬ (x.id == productID) = true := List.find?_eq_none.mp hnone
    have hcomb : db.find?
        (fun r => r.id == productID && decide (0 ≤ r.stockQuantity + quantityChange)) =
        none := by
      rw [List.find?_eq_none]
      intro x hx hcx
      exact hall x hx (Bool.and_elim_left hcx)
    have hany : db.any (fun r => r.id == productID) = false := by
      rw [List.any_eq_false]
      exact hall
    simp [PostgresStore.UpdateStock, hcomb, hany]
  · intro r hfind hneg
    have hmem : r ∈ db := List.mem_of_find?_eq_some hfind
    have hid0 := List.find?_some hfind
    have hid : (r.id == productID) = true := hid0
    have hcomb : db.find?
        (fun x => x.id == productID && decide (0 ≤ x.stockQuantity + quantityChange)) =
        none := by
      rw [List.find?_eq_none]
      intro x hx hcx
      have hxid : (x.id == productID) = true := Bool.and_elim_left hcx
      have hxr : x = r := huniq x hx r hmem (by
        have h1 : x.id = productID := by exact_mod_cast beq_iff_eq.mp hxid
        have h2 : r.id = productID := by exact_mod_cast beq_iff_eq.mp hid
        rw [h1, h2])
      have hguard : decide (0 ≤ x.stockQuantity + quantityChange) = true :=
        Bool.and_elim_right hcx
      rw [hxr] at hguard
      exact absurd (of_decide_eq_true hguard) (not_le.mpr hneg)
    have hany : db.any (fun x => x.id == productID) = true :=
      List.any_eq_true.mpr ⟨r, hmem, hid⟩
    simp [PostgresStore.UpdateStock, hcomb, hany]
  · intro r hfind hpos
    have hmem : r ∈ db := List.mem_of_find?_eq_some hfind
    have hid0 := List.find?_some hfind
    have hid : (r.id == productID) = true := hid0
    have hcomb : db.find?
        (fun x => x.id == productID && decide (0 ≤ x.stockQuantity + quantityChange)) =
        some r := by
      refine find?_of_stronger hfind (fun x hx => Bool.and_elim_left hx) ?_
      rw [Bool.and_eq_true]
      exact ⟨hid, decide_eq_true hpos⟩
    have hmap : db.map (fun q =>
        if q.id == productID && decide (0 ≤ q.stockQuantity + quantityChange) then
          { q with stockQuantity := q.stockQuantity + quantityChange, updatedAt := now }
        else q) =
        db.map (fun q =>
          if q.id == productID then
            { q with stockQuantity := q.stockQuantity + quantityChange, updatedAt := now }
          else q) := by
      refine List.map_congr_left (fun x hx => ?_)
      by_cases hxid : (x.id == productID) = true
      · have hxr : x = r := huniq x hx r hmem (by
          have h1 : x.id = productID := by exact_mod_cast beq_iff_eq.mp hxid
          have h2 : r.id = productID := by exact_mod_cast beq_iff_eq.mp hid
          rw [h1, h2])
        have hguard : decide (0 ≤ x.stockQuantity + quantityChange) = true := by
          rw [hxr]; exact decide_eq_true hpos
        simp [hxid, hguard]
      · simp [hxid]
    simp only [PostgresStore.UpdateStock, hcomb]
    rw [hmap]

/-! ## Example fixtures used by witnesses and counterexamples -/

/-- An active in-stock product row. -/
def exRow1 : Row :=
  { id := 1, name := "Widget", description := some "A widget", sku := "sku-1", price := 5,
    stockQuantity := 3, categoryID := some 4, imageURL := none, isActive := true,
    attributes := none, createdAt := 10, updatedAt := 10 }

/-- An inactive zero-stock product row with an attributes document. -/
def exRow2 : Row :=
  { id := 2, name := "Gadget", description := none, sku := "sku-2", price := 7,
    stockQuantity := 0, categoryID := none, imageURL := none, isActive := false,
    attributes := some "\x7b\x7d", createdAt := 11, updatedAt := 11 }

/-- A two-row product table. -/
def exDb : List Row := [exRow1, exRow2]

/-- An example category. -/
def exCat1 : Category :=
  { id := 7, name := "Books", description := none, parentCategoryID := none,
    createdAt := 1, updatedAt := 1 }

/-- A one-row category table. -/
def exCatDb : List Category := [exCat1]

/-! ## C1 witness -/

/-- Witness for C1: concrete evaluations of all three branches of the claim
on `exDb`. -/
theorem C1_updateStock_guarded_witness :
    (PostgresStore.UpdateStock exDb 99 1 7 = (.error .productNotFound, exDb)) ∧
    (PostgresStore.UpdateStock exDb 1 (-5) 7 = (.error .insufficientStock, exDb)) ∧
    (PostgresStore.UpdateStock exDb 1 (-2) 7 =
      (.ok (rowToProduct
          { exRow1 with stockQuantity := exRow1.stockQuantity + (-2), updatedAt := 7 }),
       exDb.map (fun q =>
         if q.id == 1 then
           { q with stockQuantity := q.stockQuantity + (-2), updatedAt := 7 }
         else q))) :=
  ⟨(C1_updateStock_guarded exDb 99 1 7 (by decide)).1 (by decide),
   (C1_updateStock_guarded exDb 1 (-5) 7 (by decide)).2.1 exRow1 (by decide) (by decide),
   (C1_updateStock_guarded exDb 1 (-2) 7 (by decide)).2.2 exRow1 (by decide) (by decide)⟩

/-! ## C2 -/

/-- **C2** (failing input): a one-item batch whose single item has the
invalid product id 0, so that every item fails. The claim (and the code's own
`// All items failed` comment) say no result payload should be returned —
only the error — but the handler returns a non-nil response with an empty
`updated_products` list alongside the first error, because the partial-result
branch's guard `len(updated) < len(items)` is also true when every item
failed, which makes the `return nil, firstError` branch unreachable. -/
theorem C2_updateStock_all_fail_code_bug :
    @GRPCHandler.UpdateStock Unit (fun _ => none) exDb 7 [⟨0, 5⟩] =
      (some { updatedProducts := [] },
       some { code := .invalidArgument, message := "Item has invalid Product ID: 0" },
       exDb) := by
  decide

/-! ## C4 -/

/-- A product whose attributes document is the non-empty JSON text `null`. -/
def exProductNullAttrs : Product :=
  { id := 0, name := "N", description := none, sku := "sku-n", price := 1,
    stockQuantity := 1, categoryID := none, imageURL := none, isActive := true,
    attributes := some "null", createdAt := 0, updatedAt := 0 }

/-- **C4** (counterexample): the claim "for every product created with a
non-empty attributes document, reading the product back yields an equivalent
attributes document" fails for the 4-byte document `null`: it is stored
verbatim, which coincides with the store's explicit null marker, so the
product reads back with no attributes document at all. -/
theorem C4_attrs_roundtrip_counterexample :
    exProductNullAttrs.attributes = some "null" ∧
    ("null" : String).length > 0 ∧
    PostgresStore.CreateProduct [] 1 0 exProductNullAttrs =
      .ok (rowToProduct (PostgresStore.insertedProductRow 1 0 exProductNullAttrs),
        [PostgresStore.insertedProductRow 1 0 exProductNullAttrs]) ∧
    PostgresStore.GetProductByID [PostgresStore.insertedProductRow 1 0 exProductNullAttrs] 1 =
      .ok (rowToProduct (PostgresStore.insertedProductRow 1 0 exProductNullAttrs)) ∧
    (rowToProduct (PostgresStore.insertedProductRow 1 0 exProductNullAttrs)).attributes = none :=
  ⟨rfl, by decide, rfl, rfl, by decide⟩

/-- **C4** (amended): round-trip of product attributes through the store, for
a fresh id. A product created with a non-empty attributes document *other
than the literal `null` document* reads back with the same document; a
product created with absent, empty, or literal-`null` attributes is persisted
with the explicit `"null"` marker in its row and reads back with no
attributes document (not an empty one). -/
theorem C4_attrs_roundtrip (db : List Row) (newId now : Int) (p : Product)
    (created : Product) (db2 : List Row)
    (hfresh : ∀ r ∈ db, r.id ≠ newId)
    (hok : PostgresStore.CreateProduct db newId now p = .ok (created, db2)) :
    (∀ a, p.attributes = some a → 0 < a.length → a ≠ "null" →
      PostgresStore.GetProductByID db2 newId = .ok created ∧
      created.attributes = some a) ∧
    ((p.attributes = none ∨ p.attributes = some "" ∨ p.attributes = some "null") →
      db2 = db ++ [PostgresStore.insertedProductRow newId now p] ∧
      (PostgresStore.insertedProductRow newId now p).attributes = some "null" ∧
      PostgresStore.GetProductByID db2 newId = .ok created ∧
      created.attributes = none) := by
  by_cases hsku : db.any (fun r => r.sku == p.sku) = true
  · simp [PostgresStore.CreateProduct, hsku] at hok
  · rw [PostgresStore.CreateProduct, if_neg hsku] at hok
    have hpair := Except.ok.inj hok
    have hcreated : created = rowToProduct (PostgresStore.insertedProductRow newId now p) := by
      have := congrArg Prod.fst hpair
      simpa using this.symm
    have hdb2 : db2 = db ++ [PostgresStore.insertedProductRow newId now p] := by
      have := congrArg Prod.snd hpair
      simpa using this.symm
    have hget : PostgresStore.GetProductByID db2 newId = .ok created := by
      rw [hdb2, PostgresStore.GetProductByID, List.find?_append]
      have hnone : db.find? (fun r => r.id == newId) = none := by
        rw [List.find?_eq_none]
        intro x hx hbeq
        exact hfresh x hx (by exact_mod_cast beq_iff_eq.mp hbeq)
      have hone : List.find? (fun r => r.id == newId) [PostgresStore.insertedProductRow newId now p] =
          some (PostgresStore.insertedProductRow newId now p) :=
        List.find?_cons_of_pos _ (by simp [PostgresStore.insertedProductRow])
      rw [hnone, hone, Option.none_or, hcreated]
    refine ⟨?_, ?_⟩
    · intro a ha hlen hnull
      refine ⟨hget, ?_⟩
      have hne : a ≠ "" := fun h => by
        rw [h] at hlen
        exact absurd hlen (by decide)
      rw [hcreated]
      simp only [rowToProduct, PostgresStore.insertedProductRow, encodeAttributes, ha]
      rw [if_pos hlen]
      simp [decodeAttributes, hne, hnull]
    · intro hcases
      have henc : encodeAttributes p.attributes = "null" := by
        rcases hcases with h | h | h <;> simp [encodeAttributes, h]
      refine ⟨hdb2, by simp [PostgresStore.insertedProductRow, henc], hget, ?_⟩
      rw [hcreated]
      simp [rowToProduct, PostgresStore.insertedProductRow, henc, decodeAttributes]

/-- A product carrying a real attributes document. -/
def exProductAttrs : Product :=
  { exProductNullAttrs with sku := "sku-a", attributes := some "\x7b\"color\":\"red\"\x7d" }

/-- A product with no attributes document. -/
def exProductNoAttrs : Product :=
  { exProductNullAttrs with sku := "sku-b", attributes := none }

/-- Witness for C4 (amended): both round-trip branches evaluated on concrete
products created into the empty table. -/
theorem C4_attrs_roundtrip_witness :
    (PostgresStore.GetProductByID [PostgresStore.insertedProductRow 3 0 exProductAttrs] 3 =
      .ok (rowToProduct (PostgresStore.insertedProductRow 3 0 exProductAttrs)) ∧
      (rowToProduct (PostgresStore.insertedProductRow 3 0 exProductAttrs)).attributes =
        some "\x7b\"color\":\"red\"\x7d") ∧
    ([PostgresStore.insertedProductRow 4 0 exProductNoAttrs] =
      [] ++ [PostgresStore.insertedProductRow 4 0 exProductNoAttrs] ∧
      (PostgresStore.insertedProductRow 4 0 exProductNoAttrs).attributes = some "null" ∧
      PostgresStore.GetProductByID [PostgresStore.insertedProductRow 4 0 exProductNoAttrs] 4 =
        .ok (rowToProduct (PostgresStore.insertedProductRow 4 0 exProductNoAttrs)) ∧
      (rowToProduct (PostgresStore.insertedProductRow 4 0 exProductNoAttrs)).attributes =
        none) :=
  ⟨(C4_attrs_roundtrip [] 3 0 exProductAttrs _ _ (by decide) rfl).1
      "\x7b\"color\":\"red\"\x7d" rfl (by decide) (by decide),
   (C4_attrs_roundtrip [] 4 0 exProductNoAttrs _ _ (by decide) rfl).2 (Or.inl rfl)⟩

/-! ## C5 -/

/-- **C5**: for every REST category-update request with a positive path id
whose payload passes validation and names the path id as its own
`parent_category_id`, the handler answers 400 "Category cannot be its own
parent", the stored state is returned unchanged, and the result is the same
for *every* store-update function — the storage engine is never consulted. -/
theorem C5_category_self_parent_rejected
    (validate : CategoryUpdateInput → Bool)
    (storeUpdate : Category → List Category → Except StoreErr Category × List Category)
    (db : List Category) (categoryID : Int) (input : CategoryUpdateInput)
    (hid : 0 < categoryID) (hval : validate input = true)
    (hparent : input.parentCategoryID = some categoryID) :
    HTTPHandler.UpdateCategory validate storeUpdate db (some categoryID) (some input) =
      (.err 400 "Category cannot be its own parent", db) := by
  simp [HTTPHandler.UpdateCategory, hval, hparent,
    show ¬ categoryID ≤ 0 from by omega]

/-- Witness for C5: a concrete self-parenting update, with a store-update
function that would clobber the whole table if it were called. -/
theorem C5_category_self_parent_rejected_witness :
    HTTPHandler.UpdateCategory (fun _ => true) (fun c _ => (.ok c, [])) exCatDb (some 7)
      (some { name := "Books", description := none, parentCategoryID := some 7 }) =
      (.err 400 "Category cannot be its own parent", exCatDb) :=
  C5_category_self_parent_rejected (fun _ => true) (fun c _ => (.ok c, [])) exCatDb 7
    { name := "Books", description := none, parentCategoryID := some 7 }
    (by decide) rfl rfl

/-! ## C9 -/

/-- **C9**: for every REST product-update request with a positive path id and
a payload passing validation, when the existence check `GetProductByID`
reports `ErrProductNotFound` the handler answers 404 with the store's
"product not found" message, the stored state is returned unchanged, and the
result is the same for *every* update function — the store's `UpdateProduct`
is never invoked. -/
theorem C9_product_update_existence_check
    (validate : ProductUpdateInput → Bool)
    (updateProduct : Product → List Row → Except StoreErr Product × List Row)
    (db : List Row) (productID : Int) (input : ProductUpdateInput)
    (hid : 0 < productID) (hval : validate input = true)
    (hget : PostgresStore.GetProductByID db productID = .error .productNotFound) :
    HTTPHandler.UpdateProduct validate updateProduct db (some productID) (some input) =
      (.err 404 "store: product not found", db) := by
  simp [HTTPHandler.UpdateProduct, hval, hget,
    show ¬ productID ≤ 0 from by omega]

/-- Witness for C9: updating the absent id 5 of the two-row table, with an
update function that would clobber the table if it were called. -/
theorem C9_product_update_existence_check_witness :
    HTTPHandler.UpdateProduct (fun _ => true)
      (fun p _ => (.ok p, [])) exDb (some 5)
      (some { name := "W", description := none, sku := "sku-9", price := 2,
              stockQuantity := 1, categoryID := none, imageURL := none,
              isActive := none, attributes := none }) =
      (.err 404 "store: product not found", exDb) :=
  C9_product_update_existence_check (fun _ => true) (fun p _ => (.ok p, [])) exDb 5
    { name := "W", description := none, sku := "sku-9", price := 2,
      stockQuantity := 1, categoryID := none, imageURL := none,
      isActive := none, attributes := none }
    (by decide) rfl (by decide)

/-! ## C8 -/

/-- **C8**: for every store list call (products or categories): when the
count query reports total 0, the result is the empty sequence with total 0
for *every* data-query oracle — the data query is never executed; when the
total is nonzero, the result is the (total function) data query's row list
with the total, hence always a genuine sequence. (Go's `nil` slice is not
representable here: the code returns an explicit empty slice literal in the
zero branch and a `make`-initialised, append-built slice otherwise, so both
branches are modelled by plain lists.) -/
theorem C8_list_zero_total_short_circuit :
    (∀ (db : List Row) (params : ListProductsParams) dataQ,
      PostgresStore.countProducts db params = 0 →
      PostgresStore.ListProductsWith dataQ db params = ([], 0)) ∧
    (∀ (db : List Row) (params : ListProductsParams),
      PostgresStore.countProducts db params ≠ 0 →
      PostgresStore.ListProducts db params =
        (PostgresStore.listProductsDataQuery db params,
         PostgresStore.countProducts db params)) ∧
    (∀ (db : List Category) (params : ListCategoriesParams) dataQ,
      PostgresStore.countCategories db = 0 →
      PostgresStore.ListCategoriesWith dataQ db params = ([], 0)) ∧
    (∀ (db : List Category) (params : ListCategoriesParams),
      PostgresStore.countCategories db ≠ 0 →
      PostgresStore.ListCategories db params =
        (PostgresStore.listCategoriesDataQuery db params,
         PostgresStore.countCategories db)) := by
  refine ⟨?_, ?_, ?_, ?_⟩
  · intro db params dataQ h0
    simp [PostgresStore.ListProductsWith, h0]
  · intro db params h0
    simp [PostgresStore.ListProducts, PostgresStore.ListProductsWith, h0]
  · intro db params dataQ h0
    simp [PostgresStore.ListCategoriesWith, h0]
  · intro db params h0
    simp [PostgresStore.ListCategories, PostgresStore.ListCategoriesWith, h0]

/-- Witness for C8: the zero-total short-circuit ignores even a data-query
oracle that would fabricate rows, and a nonzero-total call on `exDb` returns
the data query's rows with the count. -/
theorem C8_list_zero_total_short_circuit_witness :
    (PostgresStore.ListProductsWith (fun _ _ => [rowToProduct exRow1]) []
      (availabilityParams [⟨1, 1⟩]) = ([], 0)) ∧
    (PostgresStore.ListProducts exDb (availabilityParams [⟨1, 1⟩]) =
      (PostgresStore.listProductsDataQuery exDb (availabilityParams [⟨1, 1⟩]),
       PostgresStore.countProducts exDb (availabilityParams [⟨1, 1⟩]))) ∧
    (PostgresStore.ListCategoriesWith (fun _ _ => [exCat1]) [] ⟨10, 0⟩ = ([], 0)) ∧
    (PostgresStore.ListCategories exCatDb ⟨10, 0⟩ =
      (PostgresStore.listCategoriesDataQuery exCatDb ⟨10, 0⟩,
       PostgresStore.countCategories exCatDb)) :=
  ⟨C8_list_zero_total_short_circuit.1 [] _ _ (by decide),
   C8_list_zero_total_short_circuit.2.1 exDb _ (by decide),
   C8_list_zero_total_short_circuit.2.2.1 [] ⟨10, 0⟩ _ (by decide),
   C8_list_zero_total_short_circuit.2.2.2 exCatDb ⟨10, 0⟩ (by decide)⟩

/-! ## C7 and C10 -/

/-- `tokenOffset` of the empty token. -/
theorem tokenOffset_empty : tokenOffset "" = 0 := rfl

/-- An unparsable page token leaves the offset at 0. -/
theorem tokenOffset_of_unparsable {t : String} (h : goAtoi t = none) :
    tokenOffset t = 0 := by
  simp [tokenOffset, h]

/-- A token parsing to a negative offset leaves the offset at 0. -/
theorem tokenOffset_of_neg {t : String} {v : Int} (h : goAtoi t = some v) (hv : v < 0) :
    tokenOffset t = 0 := by
  simp [tokenOffset, h, show ¬ 0 ≤ v from by omega]

/-- **C7**: for every RPC list request (products or categories), the
next-page token in the response equals the prior offset plus the number of
returned rows exactly when more rows remain beyond the current page
(`offset + returned < total`), and is absent (empty) otherwise; and a request
whose page token is unparsable (which includes the absent, empty token) is
answered exactly like a request with no token — offset 0. -/
theorem C7_rpc_page_tokens :
    (∀ (σ : Type) (unm : String → Option σ) (db : List Row)
        (req : ListProductsInternalRequest),
      (GRPCHandler.ListProductsInternal unm db req).pageInfo.nextPageToken =
        (if tokenOffset req.pageToken +
            (GRPCHandler.ListProductsInternal unm db req).products.length <
            (GRPCHandler.ListProductsInternal unm db req).pageInfo.totalSize then
          toString (tokenOffset req.pageToken +
            (GRPCHandler.ListProductsInternal unm db req).products.length)
        else "")) ∧
    (∀ (db : List Category) (req : ListCategoriesInternalRequest),
      (GRPCHandler.ListCategoriesInternal db req).pageInfo.nextPageToken =
        (if tokenOffset req.pageToken +
            (GRPCHandler.ListCategoriesInternal db req).categories.length <
            (GRPCHandler.ListCategoriesInternal db req).pageInfo.totalSize then
          toString (tokenOffset req.pageToken +
            (GRPCHandler.ListCategoriesInternal db req).categories.length)
        else "")) ∧
    (∀ (σ : Type) (unm : String → Option σ) (db : List Row)
        (ps : Int) (t : String) (cat : Int) (ids : List Int) (inc : Bool),
      goAtoi t = none →
      GRPCHandler.ListProductsInternal unm db ⟨ps, t, cat, ids, inc⟩ =
        GRPCHandler.ListProductsInternal unm db ⟨ps, "", cat, ids, inc⟩) ∧
    (∀ (db : List Category) (ps : Int) (t : String) (par : Int),
      goAtoi t = none →
      GRPCHandler.ListCategoriesInternal db ⟨ps, t, par⟩ =
        GRPCHandler.ListCategoriesInternal db ⟨ps, "", par⟩) := by
  refine ⟨?_, ?_, ?_, ?_⟩
  · intro σ unm db req
    rfl
  · intro db req
    rfl
  · intro σ unm db ps t cat ids inc h
    simp [GRPCHandler.ListProductsInternal, GRPCHandler.productsInternalParams,
      tokenOffset_of_unparsable h, tokenOffset_empty]
  · intro db ps t par h
    simp [GRPCHandler.ListCategoriesInternal, tokenOffset_of_unparsable h, tokenOffset_empty]

/-- Witness for C7: the unparsable token "abc" is answered exactly like the
empty token, on both list RPCs. -/
theorem C7_rpc_page_tokens_witness :
    GRPCHandler.ListProductsInternal (fun _ => some ()) exDb ⟨2, "abc", 0, [], true⟩ =
      GRPCHandler.ListProductsInternal (fun _ => some ()) exDb ⟨2, "", 0, [], true⟩ ∧
    GRPCHandler.ListCategoriesInternal exCatDb ⟨2, "abc", 0⟩ =
      GRPCHandler.ListCategoriesInternal exCatDb ⟨2, "", 0⟩ :=
  ⟨C7_rpc_page_tokens.2.2.1 Unit (fun _ => some ()) exDb 2 "abc" 0 [] true rfl,
   C7_rpc_page_tokens.2.2.2 exCatDb 2 "abc" 0 rfl⟩

/-- **C10**: for every RPC list request whose page token parses to a negative
integer, the handler answers exactly as for an absent token — the offset is
treated as 0 rather than rejecting the request or using the negative
value. -/
theorem C10_negative_token_offset_zero :
    (∀ (σ : Type) (unm : String → Option σ) (db : List Row)
        (ps : Int) (t : String) (v : Int) (cat : Int) (ids : List Int) (inc : Bool),
      goAtoi t = some v → v < 0 →
      GRPCHandler.ListProductsInternal unm db ⟨ps, t, cat, ids, inc⟩ =
        GRPCHandler.ListProductsInternal unm db ⟨ps, "", cat, ids, inc⟩) ∧
    (∀ (db : List Category) (ps : Int) (t : String) (v : Int) (par : Int),
      goAtoi t = some v → v < 0 →
      GRPCHandler.ListCategoriesInternal db ⟨ps, t, par⟩ =
        GRPCHandler.ListCategoriesInternal db ⟨ps, "", par⟩) := by
  constructor
  · intro σ unm db ps t v cat ids inc h hv
    simp [GRPCHandler.ListProductsInternal, GRPCHandler.productsInternalParams,
      tokenOffset_of_neg h hv, tokenOffset_empty]
  · intro db ps t v par h hv
    simp [GRPCHandler.ListCategoriesInternal, tokenOffset_of_neg h hv, tokenOffset_empty]

/-- Witness for C10: the token "-3" (which parses to -3) is answered exactly
like the empty token, on both list RPCs. -/
theorem C10_negative_token_offset_zero_witness :
    GRPCHandler.ListProductsInternal (fun _ => some ()) exDb ⟨2, "-3", 0, [], true⟩ =
      GRPCHandler.ListProductsInternal (fun _ => some ()) exDb ⟨2, "", 0, [], true⟩ ∧
    GRPCHandler.ListCategoriesInternal exCatDb ⟨2, "-3", 0⟩ =
      GRPCHandler.ListCategoriesInternal exCatDb ⟨2, "", 0⟩ :=
  ⟨C10_negative_token_offset_zero.1 Unit (fun _ => some ()) exDb 2 "-3" (-3) 0 [] true
      rfl (by decide),
   C10_negative_token_offset_zero.2 exCatDb 2 "-3" (-3) 0 rfl (by decide)⟩

/-! ## C6 -/

/-- The normalised REST `limit` is always at least 1. -/
theorem normalizeLimit_ge_one (p : Option Int) : 1 ≤ normalizeLimit p := by
  cases p with
  | none => simp [normalizeLimit]
  | some v =>
    simp only [normalizeLimit]
    split
    · split <;> omega
    · split <;> omega

/-- `(t + n - 1) / n` is the ceiling of the rational `t / n`. -/
theorem nat_ceil_div (t n : Nat) (hn : 0 < n) :
    (if 0 < t then (t + n - 1) / n else 0) = ⌈(t : ℚ) / (n : ℚ)⌉₊ := by
  by_cases ht : 0 < t
  · rw [if_pos ht]
    rw [eq_comm]
    have hk1 : 1 ≤ (t + n - 1) / n := by
      rw [Nat.le_div_iff_mul_le hn]
      omega
    rw [Nat.ceil_eq_iff (by omega : (t + n - 1) / n ≠ 0)]
    have hub : t ≤ ((t + n - 1) / n) * n := by
      have h2 : (t + n - 1) / n < (t + n - 1) / n + 1 := Nat.lt_succ_self _
      have h3 : t + n - 1 < ((t + n - 1) / n + 1) * n := (Nat.div_lt_iff_lt_mul hn).mp h2
      have h4 : ((t + n - 1) / n + 1) * n = ((t + n - 1) / n) * n + n := by ring
      omega
    have hlb : ((t + n - 1) / n - 1) * n < t := by
      have h4 : ((t + n - 1) / n) * n ≤ t + n - 1 := Nat.div_mul_le_self (t + n - 1) n
      have h5 : ((t + n - 1) / n - 1) * n = ((t + n - 1) / n) * n - n := by
        rw [Nat.sub_mul, one_mul]
      omega
    constructor
    · rw [lt_div_iff₀ (by exact_mod_cast hn : (0 : ℚ) < (n : ℚ))]
      exact_mod_cast hlb
    · rw [div_le_iff₀ (by exact_mod_cast hn : (0 : ℚ) < (n : ℚ))]
      exact_mod_cast hub
  · rw [if_neg ht]
    have h0 : t = 0 := by omega
    subst h0
    simp

/-- The handlers' `total_pages` computation equals the ceiling of
`total_items / limit` (both are 0 for an empty result). -/
theorem totalPagesFor_eq_ceil (t : Nat) (limit : Int) (hl : 1 ≤ limit) :
    totalPagesFor t limit = ⌈(t : ℚ) / (limit : ℚ)⌉₊ := by
  have hn : 0 < limit.toNat := by omega
  have hcast : ((limit.toNat : ℚ)) = (limit : ℚ) := by
    have := Int.toNat_of_nonneg (by omega : (0 : Int) ≤ limit)
    exact_mod_cast congrArg (fun z : Int => (z : ℚ)) this
  calc totalPagesFor t limit
      = (if 0 < t then (t + limit.toNat - 1) / limit.toNat else 0) := by
        simp [totalPagesFor]
    _ = ⌈(t : ℚ) / (limit.toNat : ℚ)⌉₊ := nat_ceil_div t limit.toNat hn
    _ = ⌈(t : ℚ) / (limit : ℚ)⌉₊ := by rw [hcast]

/-- The pagination property asserted by C6 of one envelope. -/
def paginationCeil (pg : Pagination) : Prop :=
  pg.totalPages = ⌈(pg.totalItems : ℚ) / (pg.limit : ℚ)⌉₊ ∧
  (pg.totalItems = 0 → pg.totalPages = 0)

/-- Closing step for the products list handler: the successful branch's
envelope satisfies the ceiling property. -/
theorem paginationCeil_of_ok {limit page : Int} {res : List Product × Nat}
    {s : Nat} {env : ListEnvelope Product} (hl : 1 ≤ limit)
    (h : (RestResponse.ok 200
        { data := res.1,
          pagination := { page := page, limit := limit, totalItems := res.2,
                          totalPages := totalPagesFor res.2 limit } } :
        RestResponse (ListEnvelope Product)) = .ok s env) :
    paginationCeil env.pagination := by
  have henv := (RestResponse.ok.inj h).2
  rw [← henv]
  refine ⟨totalPagesFor_eq_ceil _ limit hl, ?_⟩
  intro h0
  have h2 : res.2 = 0 := h0
  simp [totalPagesFor, h2]

/-- C6 for the shared tail of the products list handler: any 200 envelope it
produces satisfies the ceiling property, provided the normalised limit is
positive (which `normalizeLimit` guarantees at every call site). -/
theorem listProductsRest_pagination (db : List Row) (limit page offset : Int)
    (searchQuery : Option String) (categoryID : Option Int)
    (minPriceParam maxPriceParam : QueryParam ℚ) (isActiveParam : QueryParam Bool)
    (sortByParam sortOrderParam : String) (s : Nat) (env : ListEnvelope Product)
    (hl : 1 ≤ limit)
    (h : HTTPHandler.listProductsRest db limit page offset searchQuery
      categoryID minPriceParam maxPriceParam isActiveParam sortByParam sortOrderParam =
      .ok s env) :
    paginationCeil env.pagination := by
  rw [HTTPHandler.listProductsRest.eq_def] at h
  repeat'
    first
    | (split at h)
    | (dsimp only at h)
  all_goals
    first
    | (exact paginationCeil_of_ok hl h)
    | (simp at h)

/-- **C6**: every successful REST list response (products or categories)
reports `total_pages = ⌈total_items / limit⌉` — in particular 0 when
`total_items` is 0 — where `limit` is the normalised per-page limit used for
the query. -/
theorem C6_total_pages_ceiling :
    (∀ (db : List Category) (limitParam pageParam : Option Int),
      paginationCeil (HTTPHandler.ListCategories db limitParam pageParam).pagination) ∧
    (∀ (db : List Row) (limitParam pageParam : Option Int) (q : String)
        (categoryIdParam : QueryParam Int) (minPriceParam maxPriceParam : QueryParam ℚ)
        (isActiveParam : QueryParam Bool) (sortByParam sortOrderParam : String)
        (s : Nat) (env : ListEnvelope Product),
      HTTPHandler.ListProducts db limitParam pageParam q categoryIdParam minPriceParam
        maxPriceParam isActiveParam sortByParam sortOrderParam = .ok s env →
      paginationCeil env.pagination) := by
  constructor
  · intro db limitParam pageParam
    refine ⟨?_, ?_⟩
    · exact totalPagesFor_eq_ceil _ _ (normalizeLimit_ge_one limitParam)
    · intro h0
      simp only [HTTPHandler.ListCategories] at h0 ⊢
      simp only [h0]
      simp [totalPagesFor]
  · intro db limitParam pageParam q categoryIdParam minPriceParam maxPriceParam
      isActiveParam sortByParam sortOrderParam s env h
    rw [HTTPHandler.ListProducts.eq_def] at h
    repeat'
      first
      | (split at h)
      | (dsimp only at h)
    all_goals
      first
      | (exact listProductsRest_pagination _ _ _ _ _ _ _ _ _ _ _ s env
          (normalizeLimit_ge_one limitParam) h)
      | (simp at h)

/-- Witness for C6: the default products listing over the two-row table is a
200 envelope with `total_pages = ⌈2 / 10⌉ = 1`. -/
theorem C6_total_pages_ceiling_witness :
    paginationCeil
      { page := 1, limit := 10, totalItems := 2,
        totalPages := totalPagesFor 2 10 } :=
  C6_total_pages_ceiling.2 exDb none none "" .absent .absent .absent .absent "" ""
    200
    { data := [rowToProduct exRow1, rowToProduct exRow2],
      pagination := { page := 1, limit := 10, totalItems := 2,
                      totalPages := totalPagesFor 2 10 } }
    (by decide)

/-! ## C3 -/

/-- The validation loop accepts a batch whose items all have positive ids and
positive required quantities. -/
theorem validateAvailabilityItems_eq_none {items : List AvailabilityItem}
    (h : ∀ it ∈ items, 0 < it.productId ∧ 0 < it.requiredQuantity) :
    validateAvailabilityItems items = none := by
  induction items with
  | nil => rfl
  | cons it rest ih =>
    have h1 := h it (List.mem_cons_self it rest)
    simp only [validateAvailabilityItems]
    rw [if_neg (by omega), if_neg (by omega)]
    exact ih (fun x hx => h x (List.mem_cons.mpr (Or.inr hx)))

/-- Every product returned by a store listing whose parameters carry the
`is_active = true` filter is active. -/
theorem listProducts_all_active (db : List Row) (params : ListProductsParams)
    (hact : params.isActive = some true) :
    ∀ p ∈ (PostgresStore.ListProducts db params).1, p.isActive = true := by
  intro p hp
  simp only [PostgresStore.ListProducts, PostgresStore.ListProductsWith] at hp
  by_cases h0 : PostgresStore.countProducts db params = 0
  · rw [if_pos h0] at hp
    simp at hp
  · rw [if_neg h0] at hp
    simp only [PostgresStore.listProductsDataQuery] at hp
    obtain ⟨r, hr, rfl⟩ := List.mem_map.mp hp
    have hr2 := List.mem_of_mem_take hr
    have hr3 := List.mem_of_mem_drop hr2
    have hr4 := mem_insertionSort hr3
    have hr5 := (List.mem_filter.mp hr4).2
    simp only [matchesFilters, hact, Bool.and_eq_true] at hr5
    have hract : (r.isActive == true) = true := hr5.1.2
    simp only [rowToProduct]
    simpa using hract

/-- Reduction of `CheckProductsAvailability` on a valid non-empty batch. -/
theorem checkProductsAvailability_eq (db : List Row) (items : List AvailabilityItem)
    (hne : items ≠ [])
    (hval : ∀ it ∈ items, 0 < it.productId ∧ 0 < it.requiredQuantity) :
    GRPCHandler.CheckProductsAvailability db items =
      .ok (items.map (buildStatus
        ((PostgresStore.ListProducts db (availabilityParams items)).1))) := by
  rw [GRPCHandler.CheckProductsAvailability]
  rw [if_neg (by simpa using hne)]
  rw [validateAvailabilityItems_eq_none hval]

/-- The per-item property claimed by C3 of one availability status, relative
to the fetched set of active products. -/
def availStatusSpec (fetched : List Product) (it : AvailabilityItem)
    (s : ProductAvailabilityStatus) : Prop :=
  s.productId = it.productId ∧
  (lookupProduct fetched it.productId = none →
    s.isAvailable = false ∧ s.reasonNotAvailable = some "Product not found.") ∧
  (∀ p, lookupProduct fetched it.productId = some p →
    s.name = p.name ∧ s.currentPrice = p.price ∧ s.availableQuantity = p.stockQuantity ∧
    (p.isActive = false →
      s.isAvailable = false ∧ s.reasonNotAvailable = some "Product is not active.") ∧
    (p.isActive = true → p.stockQuantity < it.requiredQuantity →
      s.isAvailable = false ∧ s.reasonNotAvailable = some "Insufficient stock.") ∧
    (p.isActive = true → it.requiredQuantity ≤ p.stockQuantity →
      s.isAvailable = true ∧ s.reasonNotAvailable = none))

/-- `buildStatus` satisfies the per-item property. -/
theorem buildStatus_spec (fetched : List Product) (it : AvailabilityItem) :
    availStatusSpec fetched it (buildStatus fetched it) := by
  unfold availStatusSpec
  cases hl : lookupProduct fetched it.productId with
  | none =>
    refine ⟨by simp [buildStatus, hl], fun _ => by simp [buildStatus, hl], ?_⟩
    intro p hp
    exact absurd hp (by simp)
  | some p0 =>
    refine ⟨?_, fun hcontra => absurd hcontra (by simp), ?_⟩
    · by_cases hact : p0.isActive <;>
        by_cases hstock : p0.stockQuantity < it.requiredQuantity <;>
        simp [buildStatus, hl, hact, hstock]
    · intro p hp
      have hpp : p0 = p := Option.some.inj hp
      subst hpp
      by_cases hact : p0.isActive
      · by_cases hstock : p0.stockQuantity < it.requiredQuantity
        · refine ⟨?_, ?_, ?_, ?_, ?_, ?_⟩ <;>
            simp [buildStatus, hl, hact, hstock]
        · refine ⟨?_, ?_, ?_, ?_, ?_, ?_⟩ <;>
            simp [buildStatus, hl, hact, hstock]
      · refine ⟨?_, ?_, ?_, ?_, ?_, ?_⟩ <;>
          simp [buildStatus, hl, hact]

/-- The availability report asserted by C3: the handler succeeds with one
status per requested item; every fetched product is active; each status
satisfies the per-item property relative to the fetched set. -/
def availabilityReport (db : List Row) (items : List AvailabilityItem) : Prop :=
  ∃ ss, GRPCHandler.CheckProductsAvailability db items = .ok ss ∧
    ss.length = items.length ∧
    (∀ p ∈ (PostgresStore.ListProducts db (availabilityParams items)).1,
      p.isActive = true) ∧
    (∀ i, ∀ h1 : i < items.length, ∀ h2 : i < ss.length,
      availStatusSpec ((PostgresStore.ListProducts db (availabilityParams items)).1)
        (items.get ⟨i, h1⟩) (ss.get ⟨i, h2⟩))

/-- **C3**: for every availability-check request whose items all have
positive ids and positive required quantities, the handler reports per item:
"not found" when the id is absent from the fetched set of active products;
"not active" when present but inactive (stated over the status builder, since
the fetch itself filters to active products); "insufficient stock" when the
available quantity is strictly below the requirement; otherwise available —
in particular a requirement exactly equal to the stock is available — and for
every found product the status carries its name, price and available
quantity. -/
theorem C3_check_products_availability (db : List Row) (items : List AvailabilityItem)
    (hne : items ≠ [])
    (hval : ∀ it ∈ items, 0 < it.productId ∧ 0 < it.requiredQuantity) :
    availabilityReport db items ∧
    (∀ (ps : List Product) (it : AvailabilityItem) (p : Product),
      lookupProduct ps it.productId = some p → p.isActive = false →
      (buildStatus ps it).isAvailable = false ∧
      (buildStatus ps it).reasonNotAvailable = some "Product is not active.") := by
  constructor
  · refine ⟨items.map (buildStatus
        ((PostgresStore.ListProducts db (availabilityParams items)).1)),
      checkProductsAvailability_eq db items hne hval, by simp,
      listProducts_all_active db _ rfl, ?_⟩
    intro i h1 h2
    have hget : (items.map (buildStatus
        ((PostgresStore.ListProducts db (availabilityParams items)).1))).get ⟨i, h2⟩ =
        buildStatus ((PostgresStore.ListProducts db (availabilityParams items)).1)
          (items.get ⟨i, h1⟩) := by
      simp
    rw [hget]
    exact buildStatus_spec _ _
  · intro ps it p hp hinact
    constructor <;> simp [buildStatus, hp, hinact]

/-- Witness for C3: a concrete three-item check against `exDb`, covering the
exact-stock-equality item (id 1), an inactive product invisible to the active
fetch (id 2) and a missing id (5). -/
theorem C3_check_products_availability_witness :
    availabilityReport exDb [⟨1, 3⟩, ⟨2, 1⟩, ⟨5, 1⟩] ∧
    (∀ (ps : List Product) (it : AvailabilityItem) (p : Product),
      lookupProduct ps it.productId = some p → p.isActive = false →
      (buildStatus ps it).isAvailable = false ∧
      (buildStatus ps it).reasonNotAvailable = some "Product is not active.") :=
  C3_check_products_availability exDb [⟨1, 3⟩, ⟨2, 1⟩, ⟨5, 1⟩] (by decide) (by decide)
